import Mathlib

/-!
# Upload form of the PDF data extractor

A shallow embedding of `frontend/src/components/UploadForm.js`: the three
pieces of component state (`formData`, `loading`, `error`), the asynchronous
change handler `handleFileUpload`, and the part of the rendered view that
depends on the state.

JavaScript values that reach the handler (the JSON body of a response, the
reason of a rejected request) are embedded as `JSVal`.  Numbers are restricted
to integers; arrays are objects that have none of the property names the
handler reads.
-/

namespace PdfExtractor

/-! ## JavaScript values -/

/-- JavaScript values as the handler can observe them. -/
inductive JSVal where
  | undefined
  | null
  | bool (b : Bool)
  | num (n : Int)
  | str (s : String)
  | obj (props : List (String × JSVal))

namespace JSVal

/-- ToBoolean: `undefined`, `null`, `false`, `0` and `''` are falsy. -/
def truthy : JSVal → Bool
  | undefined => false
  | null => false
  | bool b => b
  | num n => decide (n ≠ 0)
  | str s => decide (s ≠ "")
  | obj _ => true

/-- The values on which a property read throws. -/
def isNullish : JSVal → Bool
  | undefined => true
  | null => true
  | _ => false

/-- The value of a property read `v.k`: the bound value for an object that has
the property, `undefined` otherwise (primitives have none of the property
names used by the handler).  On `undefined` and `null`, where a plain read
throws (see `getProp`), this is `undefined`, the value of the optional read
`v?.k`. -/
def prop (v : JSVal) (k : String) : JSVal :=
  match v with
  | obj props => (props.lookup k).getD undefined
  | _ => undefined

/-- Whether an object has the property `k`; primitives have none of the
property names used by the handler. -/
def hasProp (v : JSVal) (k : String) : Bool :=
  match v with
  | obj props => (props.lookup k).isSome
  | _ => false

/-- The operator `a || b`. -/
def or (a b : JSVal) : JSVal :=
  if a.truthy then a else b

/-- Whether the value is a JavaScript string. -/
def isString : JSVal → Bool
  | str _ => true
  | _ => false

end JSVal

/-- The `TypeError` raised by a property read on `undefined` or `null`
(its message depends on the engine and is left out). -/
def typeError : JSVal :=
  .obj [("name", .str "TypeError")]

/-- Property read `v.k`; throws a `TypeError` on `undefined` and `null`. -/
def getProp (v : JSVal) (k : String) : Except JSVal JSVal :=
  if v.isNullish then .error typeError else .ok (v.prop k)

/-- Optional chaining `v?.k`. -/
def optChain (v : JSVal) (k : String) : JSVal :=
  if v.isNullish then .undefined else v.prop k

/-! ## Component state -/

/-- The `formData` state object. -/
structure FormFields where
  name : JSVal
  phone : JSVal
  address : JSVal

/-- The three `useState` cells of `UploadForm`. -/
structure UIState where
  formData : FormFields
  loading : Bool
  error : JSVal

/-- The initial values passed to `useState`. -/
def initialState : UIState :=
  { formData := { name := .str "", phone := .str "", address := .str "" }
    loading := false
    error := .str "" }

/-- A `File` of the file picker: its size in bytes and its name. -/
structure File where
  size : Nat
  name : String

/-- The change event: `e.target.files`. -/
structure ChangeEvent where
  files : List File

/-- A call `axios.post(url, formData, { headers })` with `formData` holding
the single field `file`. -/
structure Request where
  url : String
  file : File
  contentType : String

/-- How the awaited `axios.post` promise ends.  A fulfilled promise carries the
response value; a rejected promise carries an error object (axios rejects with
an `Error` instance), given by its properties; a promise that never settles is
`pending`. -/
inductive PostOutcome where
  | pending
  | resolved (response : JSVal)
  | rejected (err : List (String × JSVal))

/-- The handler up to its `await`: either it has returned, or it is suspended
on the request it issued. -/
inductive Suspended where
  | done (s : UIState)
  | awaiting (s : UIState) (req : Request)

/-- A finished (or forever suspended) call of the handler: the state it leaves,
the requests it issued, and the exception that escaped it, if any. -/
structure Run where
  ui : UIState
  requests : List Request
  uncaught : Option JSVal

/-! ## The handler -/

/-- Lines 14-30: from the event to the `await`. -/
def handleFileUploadStart (e : ChangeEvent) (s : UIState) : Suspended :=
  match e.files.head? with
  | none => .done s
  | some file =>
    if file.size > 10 * 1024 * 1024 then
      .done { s with error := .str "File size exceeds 10MB limit" }
    else
      let s := { s with loading := true }
      let s := { s with error := .str "" }
      .awaiting s
        { url := "http://localhost:5000/extract", file := file
          contentType := "multipart/form-data" }

/-- Lines 32-40: the rest of the `try` block once the response is there.  The
object literal is evaluated before `setFormData` is called, so a throwing
property read leaves the state as it is. -/
def onResponse (response : JSVal) (s : UIState) : Except JSVal UIState := do
  let success ← (getProp response "data") >>= (getProp · "success")
  if success.truthy then
    let name ← (getProp response "data") >>= (getProp · "data") >>= (getProp · "name")
    let phone ← (getProp response "data") >>= (getProp · "data") >>= (getProp · "phone")
    let address ← (getProp response "data") >>= (getProp · "data") >>= (getProp · "address")
    pure { s with formData := { name := name, phone := phone, address := address } }
  else
    let error ← (getProp response "data") >>= (getProp · "error")
    pure { s with error := error.or (.str "Failed to extract data") }

/-- Lines 41-42: the `catch` clause,
`setError(err.response?.data?.error || 'Server Error')`. -/
def onCatch (err : JSVal) (s : UIState) : Except JSVal UIState := do
  let response ← getProp err "response"
  let error :=
    if response.isNullish then JSVal.undefined
    else optChain (response.prop "data") "error"
  pure { s with error := error.or (.str "Server Error") }

/-- Lines 43-45: the `finally` clause. -/
def onFinally (s : UIState) : UIState :=
  { s with loading := false }

/-- Lines 28-45: the handler from the moment the awaited promise settles.
Returns the state it leaves and the exception that escapes, if any. -/
def handleFileUploadResume (settled : Except JSVal JSVal) (s : UIState) :
    UIState × Option JSVal :=
  let tried : Except JSVal UIState :=
    match settled with
    | .ok response => onResponse response s
    | .error err => .error err
  match tried with
  | .ok s1 => (onFinally s1, none)
  | .error err =>
    match onCatch err s with
    | .ok s1 => (onFinally s1, none)
    | .error err1 => (onFinally s, some err1)

/-- The handler `handleFileUpload` run on event `e` in state `s`, with `post`
telling how the request ends if one is issued. -/
def handleFileUpload (post : PostOutcome) (e : ChangeEvent) (s : UIState) : Run :=
  match handleFileUploadStart e s with
  | .done s1 => { ui := s1, requests := [], uncaught := none }
  | .awaiting s1 req =>
    match post with
    | .pending => { ui := s1, requests := [req], uncaught := none }
    | .resolved response =>
      let r := handleFileUploadResume (.ok response) s1
      { ui := r.1, requests := [req], uncaught := r.2 }
    | .rejected err =>
      let r := handleFileUploadResume (.error (.obj err)) s1
      { ui := r.1, requests := [req], uncaught := r.2 }

/-! ## The rendered view -/

/-- The state-dependent part of the returned JSX. -/
structure View where
  inputDisabled : Bool
  showProcessing : Bool
  showError : Bool
  errorText : JSVal
  nameValue : JSVal
  phoneValue : JSVal
  addressValue : JSVal

/-- Lines 48-91. -/
def render (s : UIState) : View :=
  { inputDisabled := s.loading
    showProcessing := s.loading
    showError := s.error.truthy
    errorText := s.error
    nameValue := s.formData.name
    phoneValue := s.formData.phone
    addressValue := s.formData.address }

/-! ## The component over time -/

/-- The mounted component: its state, every request issued so far, and the
number of handler calls suspended on a request. -/
structure Component where
  ui : UIState
  requests : List Request
  inflight : Nat

/-- The component right after mounting. -/
def Component.initial : Component :=
  { ui := initialState, requests := [], inflight := 0 }

/-- An invocation of `handleFileUpload` with event `e`: runs to the `await`. -/
def Component.select (e : ChangeEvent) (c : Component) : Component :=
  match handleFileUploadStart e c.ui with
  | .done s => { c with ui := s }
  | .awaiting s req =>
    { ui := s, requests := c.requests ++ [req], inflight := c.inflight + 1 }

/-- One outstanding request settles and the suspended handler call runs to
its end.  Nothing happens when no request is outstanding. -/
def Component.settle (settled : Except JSVal JSVal) (c : Component) : Component :=
  if c.inflight = 0 then c
  else
    { c with ui := (handleFileUploadResume settled c.ui).1, inflight := c.inflight - 1 }

/-- Example: a file that passes the size check. -/
def smallFile : File := { size := 1024, name := "a.pdf" }

/-- Example: a file just above the limit. -/
def bigFile : File := { size := 10485761, name := "b.pdf" }

/-- Example: a file of exactly the limit. -/
def limitFile : File := { size := 10485760, name := "c.pdf" }

/-- Example: a well-formed success response. -/
def okResponse : JSVal :=
  .obj [("data", .obj [("success", .bool true),
    ("data", .obj [("name", .str "A"), ("phone", .str "B"), ("address", .str "C")])])]

/-- Example: a failure response whose `error` field is the empty string. -/
def emptyErrorBody : JSVal :=
  .obj [("success", .bool false), ("error", .str "")]

/-- Example: the axios response carrying `emptyErrorBody`. -/
def emptyErrorResponse : JSVal :=
  .obj [("data", emptyErrorBody)]

/-- Example: a rejection whose response body has an empty `error` field. -/
def emptyErrorRejection : List (String × JSVal) :=
  [("response", .obj [("data", .obj [("error", .str "")])])]

/-- Example: a rejection without a response (network failure). -/
def networkRejection : List (String × JSVal) :=
  [("message", .str "Network Error")]

/-- Example: a success response whose data has a name only. -/
def partialBody : JSVal :=
  .obj [("success", .bool true), ("data", .obj [("name", .str "A")])]

/-- Example: the axios response carrying `partialBody`. -/
def partialResponse : JSVal :=
  .obj [("data", partialBody)]

/-- Example: a 2xx response whose body is the empty object. -/
def bareResponse : JSVal :=
  .obj [("data", .obj [])]

/-- Example: the component while the request for `smallFile` is outstanding. -/
def busyComponent : Component :=
  Component.initial.select { files := [smallFile] }

/-! ## Auxiliary facts -/

theorem getProp_ok_iff (v w : JSVal) (k : String) :
    getProp v k = .ok w ↔ v.isNullish = false ∧ v.prop k = w := by
  unfold getProp
  cases h : v.isNullish <;> simp

theorem getProp_of_not_nullish (v : JSVal) (k : String) (h : v.isNullish = false) :
    getProp v k = .ok (v.prop k) := by
  simp [getProp, h]

theorem prop_of_not_hasProp (v : JSVal) (k : String) (h : v.hasProp k = false) :
    v.prop k = .undefined := by
  cases v with
  | obj props =>
    cases hl : props.lookup k with
    | none => simp [JSVal.prop, hl]
    | some w => simp [JSVal.hasProp, hl] at h
  | _ => rfl

theorem prop_of_lookup (props : List (String × JSVal)) (k : String) (w : JSVal)
    (h : props.lookup k = some w) : (JSVal.obj props).prop k = w := by
  simp [JSVal.prop, h]

theorem or_truthy (a b : JSVal) (hb : b.truthy = true) : (a.or b).truthy = true := by
  unfold JSVal.or
  split <;> assumption

theorem or_of_truthy (a b : JSVal) (ha : a.truthy = true) : a.or b = a := by
  simp [JSVal.or, ha]

theorem or_of_falsy (a b : JSVal) (ha : a.truthy = false) : a.or b = b := by
  simp [JSVal.or, ha]

theorem ne_empty_of_truthy (a : JSVal) (h : a.truthy = true) : a ≠ .str "" := by
  intro h1
  rw [h1] at h
  simp [JSVal.truthy] at h

theorem start_of_empty (e : ChangeEvent) (s : UIState) (h : e.files.head? = none) :
    handleFileUploadStart e s = .done s := by
  simp [handleFileUploadStart, h]

theorem start_of_large (e : ChangeEvent) (s : UIState) (file : File)
    (h : e.files.head? = some file) (hs : 10 * 1024 * 1024 < file.size) :
    handleFileUploadStart e s
      = .done { s with error := .str "File size exceeds 10MB limit" } := by
  simp [handleFileUploadStart, h, hs]

theorem start_of_accepted (e : ChangeEvent) (s : UIState) (file : File)
    (h : e.files.head? = some file) (hs : file.size ≤ 10 * 1024 * 1024) :
    handleFileUploadStart e s
      = .awaiting { formData := s.formData, loading := true, error := .str "" }
          { url := "http://localhost:5000/extract", file := file
            contentType := "multipart/form-data" } := by
  have : ¬ (10 * 1024 * 1024 < file.size) := by omega
  simp [handleFileUploadStart, h, this]

theorem onCatch_obj (props : List (String × JSVal)) (s : UIState) :
    onCatch (.obj props) s
      = .ok { s with error :=
          (((((JSVal.obj props).prop "response").prop "data").prop "error").or
            (.str "Server Error")) } := by
  unfold onCatch optChain
  rw [getProp_of_not_nullish (.obj props) "response" rfl]
  cases h : ((JSVal.obj props).prop "response") <;>
    simp [JSVal.isNullish, bind, Except.bind, pure, Except.pure, JSVal.prop]
  rename_i ps
  cases h2 : (List.lookup "data" ps).getD JSVal.undefined <;>
    simp [JSVal.isNullish, JSVal.prop]

theorem onCatch_typeError (s : UIState) :
    onCatch typeError s = .ok { s with error := .str "Server Error" } := by
  rfl

/-- The handler after a fulfilled request, by cases on the response. -/
theorem resume_ok (response : JSVal) (s : UIState) :
    handleFileUploadResume (.ok response) s =
      if response.isNullish = true ∨ (response.prop "data").isNullish = true then
        ({ formData := s.formData, loading := false, error := .str "Server Error" }, none)
      else if ((response.prop "data").prop "success").truthy = true then
        if ((response.prop "data").prop "data").isNullish = true then
          ({ formData := s.formData, loading := false, error := .str "Server Error" }, none)
        else
          ({ formData :=
               { name := ((response.prop "data").prop "data").prop "name"
                 phone := ((response.prop "data").prop "data").prop "phone"
                 address := ((response.prop "data").prop "data").prop "address" }
             loading := false, error := s.error }, none)
      else
        ({ formData := s.formData, loading := false
           error := (((response.prop "data").prop "error").or (.str "Failed to extract data")) },
          none) := by
  unfold handleFileUploadResume onResponse
  cases hr : response.isNullish
  · cases hb : (response.prop "data").isNullish
    · cases ht : ((response.prop "data").prop "success").truthy
      · simp [getProp, hr, hb, ht, bind, Except.bind, pure, Except.pure, onFinally]
      · cases hd : ((response.prop "data").prop "data").isNullish
        · simp [getProp, hr, hb, ht, hd, bind, Except.bind, pure, Except.pure, onFinally]
        · simp [getProp, hr, hb, ht, hd, bind, Except.bind, pure, Except.pure, onFinally,
            onCatch_typeError]
    · simp [getProp, hr, hb, bind, Except.bind, pure, Except.pure, onFinally,
        onCatch_typeError]
  · simp [getProp, hr, bind, Except.bind, pure, Except.pure, onFinally, onCatch_typeError]

/-- The handler after a rejected request. -/
theorem resume_error_obj (props : List (String × JSVal)) (s : UIState) :
    handleFileUploadResume (.error (.obj props)) s =
      ({ formData := s.formData, loading := false
         error := (((((JSVal.obj props).prop "response").prop "data").prop "error").or
            (.str "Server Error")) }, none) := by
  simp [handleFileUploadResume, onCatch_obj, onFinally]

/-- A run on an accepted file whose request is fulfilled. -/
theorem run_resolved (response : JSVal) (e : ChangeEvent) (s : UIState) (file : File)
    (h : e.files.head? = some file) (hs : file.size ≤ 10 * 1024 * 1024) :
    (handleFileUpload (.resolved response) e s).ui
      = (handleFileUploadResume (.ok response)
          { formData := s.formData, loading := true, error := .str "" }).1 := by
  simp [handleFileUpload, start_of_accepted e s file h hs]

/-- A run on an accepted file whose request is rejected. -/
theorem run_rejected (err : List (String × JSVal)) (e : ChangeEvent) (s : UIState)
    (file : File) (h : e.files.head? = some file) (hs : file.size ≤ 10 * 1024 * 1024) :
    (handleFileUpload (.rejected err) e s).ui
      = { formData := s.formData, loading := false
          error := (((((JSVal.obj err).prop "response").prop "data").prop "error").or
            (.str "Server Error")) } := by
  simp [handleFileUpload, start_of_accepted e s file h hs, resume_error_obj]

/-- A run that issues no request because no file was selected. -/
theorem run_empty (post : PostOutcome) (e : ChangeEvent) (s : UIState)
    (h : e.files.head? = none) :
    handleFileUpload post e s = { ui := s, requests := [], uncaught := none } := by
  simp [handleFileUpload, start_of_empty e s h]

/-- A run on an accepted file whose request never settles. -/
theorem run_pending (e : ChangeEvent) (s : UIState) (file : File)
    (h : e.files.head? = some file) (hs : file.size ≤ 10 * 1024 * 1024) :
    (handleFileUpload .pending e s).ui
      = { formData := s.formData, loading := true, error := .str "" } := by
  simp [handleFileUpload, start_of_accepted e s file h hs]

/-- The component steps agree with the handler: on a component with no
outstanding request, selecting an accepted file and then settling its request
leaves the state of the corresponding run of `handleFileUpload`. -/
theorem select_settle_resolved (c : Component) (h0 : c.inflight = 0) (e : ChangeEvent)
    (file : File) (h : e.files.head? = some file) (hs : file.size ≤ 10 * 1024 * 1024)
    (response : JSVal) :
    ((c.select e).settle (.ok response)).ui
      = (handleFileUpload (.resolved response) e c.ui).ui := by
  simp [Component.select, Component.settle, handleFileUpload,
    start_of_accepted e c.ui file h hs, h0]

/-- A run on a file above the size limit. -/
theorem run_large (post : PostOutcome) (e : ChangeEvent) (s : UIState) (file : File)
    (h : e.files.head? = some file) (hs : 10 * 1024 * 1024 < file.size) :
    handleFileUpload post e s
      = { ui := { s with error := .str "File size exceeds 10MB limit" }
          requests := [], uncaught := none } := by
  simp [handleFileUpload, start_of_large e s file h hs]

/-- No exception escapes the handler. -/
theorem run_uncaught (post : PostOutcome) (e : ChangeEvent) (s : UIState) :
    (handleFileUpload post e s).uncaught = none := by
  unfold handleFileUpload
  cases handleFileUploadStart e s with
  | done s1 => rfl
  | awaiting s1 req =>
    cases post with
    | pending => rfl
    | resolved response =>
      simp only [resume_ok]
      split_ifs <;> rfl
    | rejected err => simp [resume_error_obj]

/-! ## Size validation -/

/-- C1: for every selected file, `handleFileUpload` issues an extraction
request if and only if `file.size ≤ 10485760`: a larger file is rejected with
no POST, and a file of at most 10485760 bytes (the limit included) leads to
exactly one POST, carrying that file to the extraction endpoint. -/
theorem C1_post_iff_within_limit (post : PostOutcome) (e : ChangeEvent) (s : UIState)
    (file : File) (hfile : e.files.head? = some file) :
    ((handleFileUpload post e s).requests.length = 1 ↔ file.size ≤ 10485760) ∧
    (10485760 < file.size →
      (handleFileUpload post e s).requests = [] ∧
      (handleFileUpload post e s).ui.error = .str "File size exceeds 10MB limit") ∧
    (file.size ≤ 10485760 →
      (handleFileUpload post e s).requests
        = [{ url := "http://localhost:5000/extract", file := file
             contentType := "multipart/form-data" }]) := by
  have hacc : file.size ≤ 10485760 →
      (handleFileUpload post e s).requests
        = [{ url := "http://localhost:5000/extract", file := file
             contentType := "multipart/form-data" }] := by
    intro hs
    unfold handleFileUpload
    rw [start_of_accepted e s file hfile (by omega)]
    cases post <;> rfl
  have hrej : 10485760 < file.size →
      (handleFileUpload post e s).requests = [] ∧
      (handleFileUpload post e s).ui.error = .str "File size exceeds 10MB limit" := by
    intro hs
    rw [run_large post e s file hfile (by omega)]
    exact ⟨rfl, rfl⟩
  refine ⟨⟨fun h => ?_, fun h => ?_⟩, hrej, hacc⟩
  · by_contra hc
    rw [(hrej (by omega)).1] at h
    simp at h
  · rw [hacc h]
    rfl

/-- C1 at a file of exactly 10485760 bytes. -/
theorem C1_post_iff_within_limit_witness :
    ((handleFileUpload .pending { files := [limitFile] } initialState).requests.length = 1
      ↔ limitFile.size ≤ 10485760) ∧
    (10485760 < limitFile.size →
      (handleFileUpload .pending { files := [limitFile] } initialState).requests = [] ∧
      (handleFileUpload .pending { files := [limitFile] } initialState).ui.error
        = .str "File size exceeds 10MB limit") ∧
    (limitFile.size ≤ 10485760 →
      (handleFileUpload .pending { files := [limitFile] } initialState).requests
        = [{ url := "http://localhost:5000/extract", file := limitFile
             contentType := "multipart/form-data" }]) :=
  C1_post_iff_within_limit .pending { files := [limitFile] } initialState limitFile rfl

/-! ## Successful extraction -/

/-- C2: for every prior state and every accepted file, if the service responds
with `{success: true, data: {name: A, phone: B, address: C}}` then the final
state has `loading = false`, `error = ''` and
`formData = {name: A, phone: B, address: C}`. -/
theorem C2_success_final_state (s : UIState) (e : ChangeEvent) (file : File)
    (response body d : JSVal) (A B C : String)
    (hfile : e.files.head? = some file) (hsize : file.size ≤ 10485760)
    (hbody : getProp response "data" = .ok body)
    (hsuccess : getProp body "success" = .ok (.bool true))
    (hdata : getProp body "data" = .ok d)
    (hname : getProp d "name" = .ok (.str A))
    (hphone : getProp d "phone" = .ok (.str B))
    (haddress : getProp d "address" = .ok (.str C)) :
    (handleFileUpload (.resolved response) e s).ui
      = { formData := { name := .str A, phone := .str B, address := .str C }
          loading := false
          error := .str "" } := by
  rw [getProp_ok_iff] at hbody hsuccess hdata hname hphone haddress
  rw [run_resolved response e s file hfile (by omega), resume_ok]
  obtain ⟨hr, rfl⟩ := hbody
  obtain ⟨hb, hsv⟩ := hsuccess
  obtain ⟨_, rfl⟩ := hdata
  simp [hr, hb, hsv, hname.1, hname.2, hphone.2, haddress.2, JSVal.truthy]

/-- C2 at the response `{success: true, data: {name: 'A', phone: 'B', address: 'C'}}`. -/
theorem C2_success_final_state_witness :
    (handleFileUpload (.resolved okResponse) { files := [smallFile] } initialState).ui
      = { formData := { name := .str "A", phone := .str "B", address := .str "C" }
          loading := false
          error := .str "" } :=
  C2_success_final_state initialState { files := [smallFile] } smallFile okResponse
    (.obj [("success", .bool true),
      ("data", .obj [("name", .str "A"), ("phone", .str "B"), ("address", .str "C")])])
    (.obj [("name", .str "A"), ("phone", .str "B"), ("address", .str "C")])
    "A" "B" "C" rfl (by decide) rfl rfl rfl rfl rfl rfl

/-! ## Service errors -/

/-- C3, as stated, fails when the `error` field is present but empty: the
response `{success: false, error: ''}` has an `error` field, yet the final
error message is the fallback and not that field. -/
theorem C3_counterexample_empty_error :
    getProp emptyErrorResponse "data" = .ok emptyErrorBody ∧
    getProp emptyErrorBody "success" = .ok (.bool false) ∧
    emptyErrorBody.hasProp "error" = true ∧
    getProp emptyErrorBody "error" = .ok (.str "") ∧
    (handleFileUpload (.resolved emptyErrorResponse) { files := [smallFile] }
        initialState).ui.error = .str "Failed to extract data" ∧
    (handleFileUpload (.resolved emptyErrorResponse) { files := [smallFile] }
        initialState).ui.error ≠ .str "" :=
  ⟨rfl, rfl, rfl, rfl, rfl, by
    show JSVal.str "Failed to extract data" ≠ JSVal.str ""
    simp⟩

/-- C3 (amended): for every accepted file, if the service responds with
`success = false` then the final error message is the response's `error` field
passed through verbatim when it is present and truthy (a non-empty string in
particular), and the fallback `'Failed to extract data'` when the field is
absent or falsy (the empty string in particular). -/
theorem C3_service_error_message (s : UIState) (e : ChangeEvent) (file : File)
    (response body : JSVal)
    (hfile : e.files.head? = some file) (hsize : file.size ≤ 10485760)
    (hbody : getProp response "data" = .ok body)
    (hsuccess : getProp body "success" = .ok (.bool false)) :
    ((body.prop "error").truthy = true →
      (handleFileUpload (.resolved response) e s).ui.error = body.prop "error") ∧
    (∀ m : String, body.prop "error" = .str m → m ≠ "" →
      (handleFileUpload (.resolved response) e s).ui.error = .str m) ∧
    ((body.prop "error").truthy = false →
      (handleFileUpload (.resolved response) e s).ui.error
        = .str "Failed to extract data") ∧
    (body.hasProp "error" = false →
      (handleFileUpload (.resolved response) e s).ui.error
        = .str "Failed to extract data") ∧
    (body.prop "error" = .str "" →
      (handleFileUpload (.resolved response) e s).ui.error
        = .str "Failed to extract data") := by
  rw [getProp_ok_iff] at hbody hsuccess
  obtain ⟨hr, rfl⟩ := hbody
  obtain ⟨hb, hsv⟩ := hsuccess
  have key : (handleFileUpload (.resolved response) e s).ui.error
      = ((response.prop "data").prop "error").or (.str "Failed to extract data") := by
    rw [run_resolved response e s file hfile (by omega), resume_ok]
    simp [hr, hb, hsv, JSVal.truthy]
  rw [key]
  refine ⟨fun h => or_of_truthy _ _ h, fun m hm hne => ?_, fun h => or_of_falsy _ _ h,
    fun h => ?_, fun h => ?_⟩
  · rw [hm]
    exact or_of_truthy _ _ (by simp [JSVal.truthy, hne])
  · rw [prop_of_not_hasProp _ _ h]
    rfl
  · rw [h]
    rfl

/-- C3 (amended) at the response `{success: false, error: 'bad format'}`. -/
theorem C3_service_error_message_witness :
    (handleFileUpload (.resolved
        (.obj [("data", .obj [("success", .bool false), ("error", .str "bad format")])]))
      { files := [smallFile] } initialState).ui.error = .str "bad format" :=
  (C3_service_error_message initialState { files := [smallFile] } smallFile
    (.obj [("data", .obj [("success", .bool false), ("error", .str "bad format")])])
    (.obj [("success", .bool false), ("error", .str "bad format")])
    rfl (by decide) rfl rfl).2.1 "bad format" rfl (by decide)

/-! ## Transport errors -/

/-- C4, as stated, fails when the rejection carries a response body whose
`error` field is the empty string: the final error message is `'Server Error'`
and not the server-provided (empty) message. -/
theorem C4_counterexample_empty_error :
    (((JSVal.obj emptyErrorRejection).prop "response").prop "data").hasProp "error" = true ∧
    (((JSVal.obj emptyErrorRejection).prop "response").prop "data").prop "error" = .str "" ∧
    (handleFileUpload (.rejected emptyErrorRejection) { files := [smallFile] }
        initialState).ui.error = .str "Server Error" ∧
    (handleFileUpload (.rejected emptyErrorRejection) { files := [smallFile] }
        initialState).ui.error ≠ .str "" :=
  ⟨rfl, rfl, rfl, by
    show JSVal.str "Server Error" ≠ JSVal.str ""
    simp⟩

/-- C4 (amended): for every accepted file, if the POST rejects, the final error
message is the `error` field of the rejection's response body when that field
is truthy (a non-empty string in particular), and `'Server Error'` otherwise:
when the rejection has no response, the response has no body, or the body has
no `error` field or a falsy one (the empty string in particular).  Loading is
false afterwards. -/
theorem C4_transport_error_message (s : UIState) (e : ChangeEvent) (file : File)
    (err : List (String × JSVal))
    (hfile : e.files.head? = some file) (hsize : file.size ≤ 10485760) :
    (((((JSVal.obj err).prop "response").prop "data").prop "error").truthy = true →
      (handleFileUpload (.rejected err) e s).ui.error
        = (((JSVal.obj err).prop "response").prop "data").prop "error") ∧
    (∀ m : String,
      (((JSVal.obj err).prop "response").prop "data").prop "error" = .str m → m ≠ "" →
      (handleFileUpload (.rejected err) e s).ui.error = .str m) ∧
    (((((JSVal.obj err).prop "response").prop "data").prop "error").truthy = false →
      (handleFileUpload (.rejected err) e s).ui.error = .str "Server Error") ∧
    (err.lookup "response" = none →
      (handleFileUpload (.rejected err) e s).ui.error = .str "Server Error") ∧
    ((((JSVal.obj err).prop "response").prop "data").hasProp "error" = false →
      (handleFileUpload (.rejected err) e s).ui.error = .str "Server Error") ∧
    (handleFileUpload (.rejected err) e s).ui.loading = false := by
  rw [run_rejected err e s file hfile (by omega)]
  refine ⟨fun h => or_of_truthy _ _ h, fun m hm hne => ?_, fun h => or_of_falsy _ _ h,
    fun h => ?_, fun h => ?_, rfl⟩
  · show JSVal.or _ _ = _
    rw [hm]
    exact or_of_truthy _ _ (by simp [JSVal.truthy, hne])
  · show JSVal.or _ _ = _
    have : (JSVal.obj err).prop "response" = .undefined := by simp [JSVal.prop, h]
    rw [this]
    rfl
  · show JSVal.or _ _ = _
    rw [prop_of_not_hasProp _ _ h]
    rfl

/-- C4 (amended) at a rejection that carries no response. -/
theorem C4_transport_error_message_witness :
    (handleFileUpload (.rejected networkRejection) { files := [smallFile] }
        initialState).ui.error = .str "Server Error" :=
  (C4_transport_error_message initialState { files := [smallFile] } smallFile
    networkRejection rfl (by decide)).2.2.2.1 rfl

/-! ## Fields are replaced atomically -/

/-- C5: errors are atomic with respect to the fields.  After an attempt that
ends in a validation rejection, in a response whose `success` is false, or in
a transport failure, `formData` is what it was before; and whenever `formData`
differs from before, the attempt was a successful extraction and all three
fields were replaced together by those of the response data. -/
theorem C5_fields_atomic (post : PostOutcome) (e : ChangeEvent) (s : UIState) :
    (∀ file, e.files.head? = some file → 10485760 < file.size →
      (handleFileUpload post e s).ui.formData = s.formData) ∧
    (∀ file response body, e.files.head? = some file → file.size ≤ 10485760 →
      post = .resolved response → getProp response "data" = .ok body →
      (body.prop "success").truthy = false →
      (handleFileUpload post e s).ui.formData = s.formData) ∧
    (∀ err, post = .rejected err →
      (handleFileUpload post e s).ui.formData = s.formData) ∧
    ((handleFileUpload post e s).ui.formData = s.formData ∨
      ∃ file response body d, e.files.head? = some file ∧ file.size ≤ 10485760 ∧
        post = .resolved response ∧ getProp response "data" = .ok body ∧
        (body.prop "success").truthy = true ∧ getProp body "data" = .ok d ∧
        d.isNullish = false ∧
        (handleFileUpload post e s).ui.formData
          = { name := d.prop "name", phone := d.prop "phone", address := d.prop "address" } ∧
        (handleFileUpload post e s).ui.error = .str "") := by
  have hrej : ∀ err, post = .rejected err →
      (handleFileUpload post e s).ui.formData = s.formData := by
    intro err hp
    subst hp
    cases hf : e.files.head? with
    | none => rw [run_empty _ e s hf]
    | some file =>
      by_cases hs : file.size ≤ 10485760
      · rw [run_rejected err e s file hf (by omega)]
      · rw [run_large _ e s file hf (by omega)]
  refine ⟨fun file hf hs => ?_, fun file response body hf hs hp hb ht => ?_, hrej, ?_⟩
  · rw [run_large post e s file hf (by omega)]
  · subst hp
    rw [getProp_ok_iff] at hb
    obtain ⟨hr, rfl⟩ := hb
    rw [run_resolved response e s file hf (by omega), resume_ok]
    cases hn : (response.prop "data").isNullish <;> simp [hr, hn, ht]
  · cases hf : e.files.head? with
    | none => left; rw [run_empty _ e s hf]
    | some file =>
      by_cases hs : file.size ≤ 10485760
      · cases post with
        | pending => left; rw [run_pending e s file hf (by omega)]
        | rejected err => left; exact hrej err rfl
        | resolved response =>
          rw [run_resolved response e s file hf (by omega), resume_ok]
          cases hr : response.isNullish
          · cases hb : (response.prop "data").isNullish
            · cases ht : ((response.prop "data").prop "success").truthy
              · left; simp
              · cases hd : ((response.prop "data").prop "data").isNullish
                · right
                  refine ⟨file, response, response.prop "data",
                    (response.prop "data").prop "data", rfl, hs, rfl, ?_, ht, ?_, hd, ?_⟩
                  · exact getProp_of_not_nullish _ _ hr
                  · exact getProp_of_not_nullish _ _ hb
                  · simp
                · left; simp
            · left; simp
          · left; simp
      · left; rw [run_large _ e s file hf (by omega)]

/-- C5 at a transport failure, a failure response and an oversized file. -/
theorem C5_fields_atomic_witness :
    (handleFileUpload (.rejected networkRejection) { files := [smallFile] }
        initialState).ui.formData = initialState.formData ∧
    (handleFileUpload (.resolved emptyErrorResponse) { files := [smallFile] }
        initialState).ui.formData = initialState.formData ∧
    (handleFileUpload .pending { files := [bigFile] } initialState).ui.formData
      = initialState.formData :=
  ⟨(C5_fields_atomic (.rejected networkRejection) { files := [smallFile] }
      initialState).2.2.1 networkRejection rfl,
   (C5_fields_atomic (.resolved emptyErrorResponse) { files := [smallFile] }
      initialState).2.1 smallFile emptyErrorResponse emptyErrorBody rfl (by decide) rfl rfl rfl,
   (C5_fields_atomic .pending { files := [bigFile] } initialState).1 bigFile rfl
      (by decide)⟩

/-! ## Selection while a request is outstanding -/

/-- C6, as stated, fails: with one request outstanding and `loading = true`,
a second selection of an accepted file handled by `handleFileUpload` issues a
second request, so two calls are outstanding. -/
theorem C6_counterexample_second_request :
    busyComponent.ui.loading = true ∧
    busyComponent.inflight = 1 ∧
    busyComponent.requests.length = 1 ∧
    (busyComponent.select { files := [smallFile] }).inflight = 2 ∧
    (busyComponent.select { files := [smallFile] }).requests.length = 2 :=
  ⟨rfl, rfl, rfl, rfl, rfl⟩

/-- C6 (amended): while `loading = true` the file input is rendered disabled
(`disabled = loading`), and that is the only guard.  A selection event that
does reach `handleFileUpload` never changes the fields at that moment, issues
no request when no file is present or the file exceeds 10485760 bytes, and for
an accepted file issues one more request whatever `loading` is, so the handler
itself does not ignore re-entrant calls. -/
theorem C6_guard_only_at_input (c : Component) (e : ChangeEvent) :
    (render c.ui).inputDisabled = c.ui.loading ∧
    (c.select e).ui.formData = c.ui.formData ∧
    (e.files.head? = none →
      (c.select e).inflight = c.inflight ∧ (c.select e).requests = c.requests) ∧
    (∀ file, e.files.head? = some file → 10485760 < file.size →
      (c.select e).inflight = c.inflight ∧ (c.select e).requests = c.requests) ∧
    (∀ file, e.files.head? = some file → file.size ≤ 10485760 →
      (c.select e).inflight = c.inflight + 1 ∧
      (c.select e).requests
        = c.requests ++ [{ url := "http://localhost:5000/extract", file := file
                           contentType := "multipart/form-data" }]) := by
  refine ⟨rfl, ?_, fun h => ?_, fun file hf hs => ?_, fun file hf hs => ?_⟩
  · cases hf : e.files.head? with
    | none => simp [Component.select, start_of_empty e c.ui hf]
    | some file =>
      by_cases hs : file.size ≤ 10485760
      · simp [Component.select, start_of_accepted e c.ui file hf (by omega)]
      · simp [Component.select, start_of_large e c.ui file hf (by omega)]
  · simp [Component.select, start_of_empty e c.ui h]
  · simp [Component.select, start_of_large e c.ui file hf (by omega)]
  · simp [Component.select, start_of_accepted e c.ui file hf (by omega)]

/-- C6 (amended) at a second selection while a request is outstanding. -/
theorem C6_guard_only_at_input_witness :
    (busyComponent.select { files := [smallFile] }).inflight = busyComponent.inflight + 1 ∧
    (busyComponent.select { files := [smallFile] }).requests
      = busyComponent.requests ++ [{ url := "http://localhost:5000/extract", file := smallFile
                                     contentType := "multipart/form-data" }] :=
  (C6_guard_only_at_input busyComponent { files := [smallFile] }).2.2.2.2 smallFile rfl
    (by decide)

/-! ## Fields taken from the response -/

/-- C7, as stated, fails: for the response `{success: true, data: {name: 'A'}}`
the `phone` field is missing from the data, and the final `phone` is
`undefined`, which is neither the empty string nor a string at all. -/
theorem C7_counterexample_missing_field :
    getProp partialResponse "data" = .ok partialBody ∧
    getProp partialBody "success" = .ok (.bool true) ∧
    (partialBody.prop "data").hasProp "phone" = false ∧
    (handleFileUpload (.resolved partialResponse) { files := [smallFile] }
        initialState).ui.formData.phone = .undefined ∧
    (handleFileUpload (.resolved partialResponse) { files := [smallFile] }
        initialState).ui.formData.phone ≠ .str "" ∧
    (handleFileUpload (.resolved partialResponse) { files := [smallFile] }
        initialState).ui.formData.phone.isString = false :=
  ⟨rfl, rfl, rfl, rfl, by
    show JSVal.undefined ≠ JSVal.str ""
    simp, rfl⟩

/-- C7 (amended): for every service response with `success = true` whose
`data` is neither `undefined` nor `null`, each of the final fields name, phone
and address equals the corresponding field of the response data when it is
present, and is `undefined` (not the empty string) when it is missing. -/
theorem C7_fields_from_response (s : UIState) (e : ChangeEvent) (file : File)
    (response body d : JSVal)
    (hfile : e.files.head? = some file) (hsize : file.size ≤ 10485760)
    (hbody : getProp response "data" = .ok body)
    (hsuccess : getProp body "success" = .ok (.bool true))
    (hdata : getProp body "data" = .ok d)
    (hd : d.isNullish = false) :
    (handleFileUpload (.resolved response) e s).ui.formData
      = { name := d.prop "name", phone := d.prop "phone", address := d.prop "address" } ∧
    (∀ props w, d = .obj props → props.lookup "name" = some w →
      (handleFileUpload (.resolved response) e s).ui.formData.name = w) ∧
    (∀ props w, d = .obj props → props.lookup "phone" = some w →
      (handleFileUpload (.resolved response) e s).ui.formData.phone = w) ∧
    (∀ props w, d = .obj props → props.lookup "address" = some w →
      (handleFileUpload (.resolved response) e s).ui.formData.address = w) ∧
    (d.hasProp "name" = false →
      (handleFileUpload (.resolved response) e s).ui.formData.name = .undefined) ∧
    (d.hasProp "phone" = false →
      (handleFileUpload (.resolved response) e s).ui.formData.phone = .undefined) ∧
    (d.hasProp "address" = false →
      (handleFileUpload (.resolved response) e s).ui.formData.address = .undefined) := by
  have key : (handleFileUpload (.resolved response) e s).ui.formData
      = { name := d.prop "name", phone := d.prop "phone", address := d.prop "address" } := by
    rw [getProp_ok_iff] at hbody hsuccess hdata
    obtain ⟨hr, rfl⟩ := hbody
    obtain ⟨hb, hsv⟩ := hsuccess
    obtain ⟨_, rfl⟩ := hdata
    rw [run_resolved response e s file hfile (by omega), resume_ok]
    simp [hr, hb, hsv, hd, JSVal.truthy]
  rw [key]
  refine ⟨rfl, fun props w hp hl => ?_, fun props w hp hl => ?_, fun props w hp hl => ?_,
    fun h => prop_of_not_hasProp _ _ h, fun h => prop_of_not_hasProp _ _ h,
    fun h => prop_of_not_hasProp _ _ h⟩
  · subst hp; exact prop_of_lookup _ _ _ hl
  · subst hp; exact prop_of_lookup _ _ _ hl
  · subst hp; exact prop_of_lookup _ _ _ hl

/-- C7 (amended) at the response `{success: true, data: {name: 'A'}}`. -/
theorem C7_fields_from_response_witness :
    (handleFileUpload (.resolved partialResponse) { files := [smallFile] }
        initialState).ui.formData.name = .str "A" ∧
    (handleFileUpload (.resolved partialResponse) { files := [smallFile] }
        initialState).ui.formData.address = .undefined :=
  ⟨(C7_fields_from_response initialState { files := [smallFile] } smallFile partialResponse
      partialBody (.obj [("name", .str "A")]) rfl (by decide) rfl rfl rfl rfl).2.1
      [("name", .str "A")] (.str "A") rfl rfl,
   (C7_fields_from_response initialState { files := [smallFile] } smallFile partialResponse
      partialBody (.obj [("name", .str "A")]) rfl (by decide) rfl rfl rfl rfl).2.2.2.2.2.2
      rfl⟩

/-! ## Bodies without `success` and `error` -/

/-- C8, as stated, fails: for a fulfilled request whose body `{}` has neither a
`success` nor an `error` field, the final error message is
`'Failed to extract data'`, not `'Server Error'`. -/
theorem C8_counterexample_bare_body :
    getProp bareResponse "data" = .ok (.obj []) ∧
    (JSVal.obj []).hasProp "success" = false ∧
    (JSVal.obj []).hasProp "error" = false ∧
    (handleFileUpload (.resolved bareResponse) { files := [smallFile] }
        initialState).ui.error = .str "Failed to extract data" ∧
    (handleFileUpload (.resolved bareResponse) { files := [smallFile] }
        initialState).ui.error ≠ .str "Server Error" :=
  ⟨rfl, rfl, rfl, rfl, by
    show JSVal.str "Failed to extract data" ≠ JSVal.str "Server Error"
    simp⟩

/-- C8 (amended): for every accepted file, a fulfilled request whose body is
not `undefined` or `null` and carries neither a `success` nor an `error` field
is handled as a response with `success = false`: the final state has
`loading = false`, the fields unchanged and the error message
`'Failed to extract data'`. -/
theorem C8_bare_body_is_service_error (s : UIState) (e : ChangeEvent) (file : File)
    (response body : JSVal)
    (hfile : e.files.head? = some file) (hsize : file.size ≤ 10485760)
    (hbody : getProp response "data" = .ok body)
    (hb : body.isNullish = false)
    (hsuccess : body.hasProp "success" = false)
    (herror : body.hasProp "error" = false) :
    (handleFileUpload (.resolved response) e s).ui
      = { formData := s.formData, loading := false
          error := .str "Failed to extract data" } := by
  rw [getProp_ok_iff] at hbody
  obtain ⟨hr, rfl⟩ := hbody
  rw [run_resolved response e s file hfile (by omega), resume_ok]
  simp [hr, hb, prop_of_not_hasProp _ _ hsuccess, prop_of_not_hasProp _ _ herror,
    JSVal.truthy, JSVal.or]

/-- C8 (amended) at the body `{}`. -/
theorem C8_bare_body_is_service_error_witness :
    (handleFileUpload (.resolved bareResponse) { files := [smallFile] } initialState).ui
      = { formData := initialState.formData, loading := false
          error := .str "Failed to extract data" } :=
  C8_bare_body_is_service_error initialState { files := [smallFile] } smallFile
    bareResponse (.obj []) rfl (by decide) rfl rfl rfl rfl

/-! ## Every failure ends in the error phase -/

/-- C9: starting from any state with `loading = false`, every failed attempt
ends with `loading = false` and a non-empty (truthy, hence different from `''`)
error message: a validation rejection, a response with `success = false`
whatever its `error` field is (absent and empty included), and a rejected POST
whatever the rejection carries. -/
theorem C9_failures_end_in_error (s : UIState) (hs : s.loading = false) (e : ChangeEvent)
    (file : File) (hfile : e.files.head? = some file) :
    (10485760 < file.size → ∀ post,
      (handleFileUpload post e s).ui.loading = false ∧
      (handleFileUpload post e s).ui.error.truthy = true ∧
      (handleFileUpload post e s).ui.error ≠ .str "") ∧
    (file.size ≤ 10485760 → ∀ response body,
      getProp response "data" = .ok body → getProp body "success" = .ok (.bool false) →
      (handleFileUpload (.resolved response) e s).ui.loading = false ∧
      (handleFileUpload (.resolved response) e s).ui.error.truthy = true ∧
      (handleFileUpload (.resolved response) e s).ui.error ≠ .str "") ∧
    (file.size ≤ 10485760 → ∀ err,
      (handleFileUpload (.rejected err) e s).ui.loading = false ∧
      (handleFileUpload (.rejected err) e s).ui.error.truthy = true ∧
      (handleFileUpload (.rejected err) e s).ui.error ≠ .str "") := by
  refine ⟨fun hsz post => ?_, fun hsz response body hbody hsuccess => ?_, fun hsz err => ?_⟩
  · rw [run_large post e s file hfile (by omega)]
    refine ⟨hs, rfl, ?_⟩
    show JSVal.str "File size exceeds 10MB limit" ≠ JSVal.str ""
    simp
  · rw [getProp_ok_iff] at hbody hsuccess
    obtain ⟨hr, rfl⟩ := hbody
    obtain ⟨hb, hsv⟩ := hsuccess
    have key : (handleFileUpload (.resolved response) e s).ui
        = { formData := s.formData, loading := false
            error := (((response.prop "data").prop "error").or
              (.str "Failed to extract data")) } := by
      rw [run_resolved response e s file hfile (by omega), resume_ok]
      simp [hr, hb, hsv, JSVal.truthy]
    rw [key]
    have ht : (((response.prop "data").prop "error").or
        (.str "Failed to extract data")).truthy = true := or_truthy _ _ rfl
    exact ⟨rfl, ht, ne_empty_of_truthy _ ht⟩
  · rw [run_rejected err e s file hfile (by omega)]
    have ht : (((((JSVal.obj err).prop "response").prop "data").prop "error").or
        (.str "Server Error")).truthy = true := or_truthy _ _ rfl
    exact ⟨rfl, ht, ne_empty_of_truthy _ ht⟩

/-- C9 at a failure response with an empty `error` field, from the initial state. -/
theorem C9_failures_end_in_error_witness :
    (handleFileUpload (.resolved emptyErrorResponse) { files := [smallFile] }
        initialState).ui.loading = false ∧
    (handleFileUpload (.resolved emptyErrorResponse) { files := [smallFile] }
        initialState).ui.error.truthy = true ∧
    (handleFileUpload (.resolved emptyErrorResponse) { files := [smallFile] }
        initialState).ui.error ≠ .str "" :=
  (C9_failures_end_in_error initialState rfl { files := [smallFile] } smallFile rfl).2.1
    (by decide) emptyErrorResponse emptyErrorBody rfl rfl

/-! ## The validation message -/

/-- C10, as stated, fails on the text of the message: for a file of 10485761
bytes the error message is `'File size exceeds 10MB limit'`, not
`'size exceeds limit'`. -/
theorem C10_counterexample_message_text :
    10 * 1024 * 1024 < bigFile.size ∧
    (handleFileUpload .pending { files := [bigFile] } initialState).ui.error
      = .str "File size exceeds 10MB limit" ∧
    (handleFileUpload .pending { files := [bigFile] } initialState).ui.error
      ≠ .str "size exceeds limit" :=
  ⟨by decide, rfl, by
    show JSVal.str "File size exceeds 10MB limit" ≠ JSVal.str "size exceeds limit"
    simp⟩

/-- C10 (amended): for every file with `size > 10 * 1024 * 1024`, the
validation-rejected transition sets the error message to
`'File size exceeds 10MB limit'` and leaves `loading` unchanged (the state
never enters loading); it issues no request and leaves the fields alone. -/
theorem C10_validation_rejection (post : PostOutcome) (e : ChangeEvent) (s : UIState)
    (file : File) (hfile : e.files.head? = some file)
    (hsize : 10 * 1024 * 1024 < file.size) :
    (handleFileUpload post e s).ui.error = .str "File size exceeds 10MB limit" ∧
    (handleFileUpload post e s).ui.loading = s.loading ∧
    (handleFileUploadStart e s
      = .done { s with error := .str "File size exceeds 10MB limit" }) ∧
    (handleFileUpload post e s).requests = [] ∧
    (handleFileUpload post e s).ui.formData = s.formData := by
  rw [run_large post e s file hfile hsize]
  exact ⟨rfl, rfl, start_of_large e s file hfile hsize, rfl, rfl⟩

/-- C10 (amended) at a file of 10485761 bytes. -/
theorem C10_validation_rejection_witness :
    (handleFileUpload (.resolved okResponse) { files := [bigFile] } initialState).ui.error
      = .str "File size exceeds 10MB limit" ∧
    (handleFileUpload (.resolved okResponse) { files := [bigFile] } initialState).ui.loading
      = initialState.loading :=
  ⟨(C10_validation_rejection (.resolved okResponse) { files := [bigFile] } initialState
      bigFile rfl (by decide)).1,
   (C10_validation_rejection (.resolved okResponse) { files := [bigFile] } initialState
      bigFile rfl (by decide)).2.1⟩

end PdfExtractor
